import Mathlib

/-!
Verification of the glyph-mirror-script repository.

Shallow embedding of the two source modules:
  * mirror_geometry.py : pure mirroring geometry (Point, almost_equal,
    find_seam_points, validate_seam_alignment, mirror_horizontal,
    mirror_vertical).
  * Mirror.py : the Glyphs-side driver (selection handling, seam axis
    choice, auto-select of seam nodes, optional snapping, trimming,
    path duplication with an affine reflection).

Floating point coordinates are modelled as rationals; Python exceptions
are modelled with an Except / Option error value.  The host application
calls removeOverlap and correctPathDirection after the script finishes;
those belong to the host geometry engine and are outside the modelled
core, so the model stops at the point where the script has rebuilt the
layer path list.
-/

namespace GlyphMirror

/-- Point = namedtuple x y on_curve from mirror_geometry.py. -/
structure Point where
  x : ℚ
  y : ℚ
  on_curve : Bool
deriving DecidableEq

/-- The two exception types raised by mirror_geometry.py
(NoSeamPointsError and SeamAlignmentError, both MirrorError). -/
inductive MirrorError where
  | noSeamPoints
  | seamAlignment
deriving DecidableEq

/-- The source_side argument of mirror_horizontal. -/
inductive HSide where
  | left
  | right
deriving DecidableEq

/-- The source_side argument of mirror_vertical. -/
inductive VSide where
  | top
  | bottom
deriving DecidableEq

/-- Python abs on a rational difference, written as an explicit
conditional so that proofs can evaluate it. -/
def rabs (a : ℚ) : ℚ :=
  if a < 0 then -a else a

/-- almost_equal a b eps from mirror_geometry.py: abs (a - b) <= eps. -/
def almost_equal (a b eps : ℚ) : Bool :=
  decide (rabs (a - b) ≤ eps)

/-- Coordinate selected by the check_x flag: x if true, y if false. -/
def coordOf (checkX : Bool) (p : Point) : ℚ :=
  if checkX then p.x else p.y

/-- find_seam_points from mirror_geometry.py: the on-curve points whose
along-axis coordinate is within center_band of axis_value. -/
def find_seam_points (points : List Point) (axisValue band : ℚ) (checkX : Bool) :
    List Point :=
  points.filter fun p => p.on_curve && decide (rabs (coordOf checkX p - axisValue) ≤ band)

/-- validate_seam_alignment from mirror_geometry.py.  Raises
NoSeamPointsError on an empty list; otherwise compares every coordinate
against the first one with almost_equal and raises SeamAlignmentError on
the first violation (with Except this is equivalent to an all-check,
the resulting error value is the same); on success returns the average
of the coordinates. -/
def validate_seam_alignment (seamPoints : List Point) (checkX : Bool) (eps : ℚ) :
    Except MirrorError ℚ :=
  match seamPoints.map (coordOf checkX) with
  | [] => .error .noSeamPoints
  | ref :: rest =>
      if rest.all fun c => almost_equal c ref eps then
        .ok ((ref :: rest).sum / (ref :: rest).length)
      else .error .seamAlignment

/-- The source filter of mirror_horizontal: for left keep p.x <= aligned + eps,
for right keep p.x >= aligned - eps. -/
def sourceH (points : List Point) (side : HSide) (alignedX eps : ℚ) : List Point :=
  match side with
  | .left => points.filter fun p => decide (p.x ≤ alignedX + eps)
  | .right => points.filter fun p => decide (alignedX - eps ≤ p.x)

/-- The per-point reflection of mirror_horizontal: mx = 2 * aligned_x - p.x. -/
def reflectX (alignedX : ℚ) (p : Point) : Point :=
  ⟨2 * alignedX - p.x, p.y, p.on_curve⟩

/-- mirror_horizontal from mirror_geometry.py. -/
def mirror_horizontal (points : List Point) (axisX : ℚ) (side : HSide)
    (eps band : ℚ) : Except MirrorError (List Point) :=
  let seamPoints := find_seam_points points axisX band true
  if seamPoints = [] then .error .noSeamPoints
  else
    match validate_seam_alignment seamPoints true eps with
    | .error e => .error e
    | .ok alignedX =>
        let src := sourceH points side alignedX eps
        .ok (src ++ src.map (reflectX alignedX))

/-- The source filter of mirror_vertical: for top keep p.y >= aligned - eps,
for bottom keep p.y <= aligned + eps. -/
def sourceV (points : List Point) (side : VSide) (alignedY eps : ℚ) : List Point :=
  match side with
  | .top => points.filter fun p => decide (alignedY - eps ≤ p.y)
  | .bottom => points.filter fun p => decide (p.y ≤ alignedY + eps)

/-- The per-point reflection of mirror_vertical: my = 2 * aligned_y - p.y. -/
def reflectY (alignedY : ℚ) (p : Point) : Point :=
  ⟨p.x, 2 * alignedY - p.y, p.on_curve⟩

/-- mirror_vertical from mirror_geometry.py. -/
def mirror_vertical (points : List Point) (axisY : ℚ) (side : VSide)
    (eps band : ℚ) : Except MirrorError (List Point) :=
  let seamPoints := find_seam_points points axisY band false
  if seamPoints = [] then .error .noSeamPoints
  else
    match validate_seam_alignment seamPoints false eps with
    | .error e => .error e
    | .ok alignedY =>
        let src := sourceV points side alignedY eps
        .ok (src ++ src.map (reflectY alignedY))

/-- A GSNode of Mirror.py, reduced to what the script reads and writes:
position, on-curve flag (node.type != GSOFFCURVE) and the selected flag. -/
structure Node where
  x : ℚ
  y : ℚ
  onCurve : Bool
  selected : Bool
deriving DecidableEq

/-- One path of a layer, as its node list. -/
abbrev GPath := List Node

/-- A layer, as its path list. -/
abbrev Layer := List GPath

/-- The user-facing failure modes of Mirror.py (each shown as a Message
dialog followed by an early return). -/
inductive UIError where
  | noNodesSelected
  | noSeamPoints
  | seamValidationFailed
deriving DecidableEq

/-- SNAP_BAND: the center_band = 5.0 constant of Mirror.py. -/
def snapBand : ℚ := 5

/-- The eps = 0.01 tolerance constant of Mirror.py. -/
def epsTol : ℚ := 1 / 100

/-- SIDE_EPSILON = 0.5, the seam-membership tolerance named by the spec. -/
def sideEpsilon : ℚ := 1 / 2

/-- selectedNodes from Mirror.py: all selected nodes of the layer, in
path order then node order. -/
def selectedNodes (layer : Layer) : List Node :=
  (layer.map fun p => p.filter fun n => n.selected).flatten

/-- Python max over a nonempty list (0 for the empty list, which the
script never passes). -/
def listMax : List ℚ → ℚ
  | [] => 0
  | a :: rest => rest.foldl max a

/-- Python min over a nonempty list (0 for the empty list, which the
script never passes). -/
def listMin : List ℚ → ℚ
  | [] => 0
  | a :: rest => rest.foldl min a

/-- Seam axis choice of mirrorHorizontal: for a left source the maximum
selected x (right edge of the selected half), for a right source the
minimum selected x. -/
def seamAxisH (side : HSide) (sel : List Node) : ℚ :=
  match side with
  | .left => listMax (sel.map fun n => n.x)
  | .right => listMin (sel.map fun n => n.x)

/-- Seam axis choice of mirrorVertical: for a top source the minimum
selected y (bottom edge of the top half), for a bottom source the
maximum selected y. -/
def seamAxisV (side : VSide) (sel : List Node) : ℚ :=
  match side with
  | .top => listMin (sel.map fun n => n.y)
  | .bottom => listMax (sel.map fun n => n.y)

/-- Membership test for a horizontal-mirror seam node: on-curve and
within the band of the axis. -/
def isSeamNodeH (axisX band : ℚ) (n : Node) : Bool :=
  n.onCurve && decide (rabs (n.x - axisX) ≤ band)

/-- Membership test for a vertical-mirror seam node. -/
def isSeamNodeV (axisY band : ℚ) (n : Node) : Bool :=
  n.onCurve && decide (rabs (n.y - axisY) ≤ band)

/-- The auto-select loop of _collect_horizontal_seam_nodes: mark every
on-curve node within the band as selected. -/
def autoSelectH (layer : Layer) (axisX band : ℚ) : Layer :=
  layer.map fun p => p.map fun n =>
    if isSeamNodeH axisX band n then { n with selected := true } else n

/-- The auto-select loop of _collect_vertical_seam_nodes. -/
def autoSelectV (layer : Layer) (axisY band : ℚ) : Layer :=
  layer.map fun p => p.map fun n =>
    if isSeamNodeV axisY band n then { n with selected := true } else n

/-- All nodes of a layer in traversal order. -/
def allNodes (layer : Layer) : List Node :=
  layer.flatten

/-- _collect_horizontal_seam_nodes from Mirror.py.  Returns the possibly
auto-selected layer together with the seam node list.  The Python method
also returns the refreshed selection; callers read it exactly when it
equals selectedNodes of the returned layer, so it is recomputed from the
layer instead of threaded through. -/
def collectHSeamNodes (layer : Layer) (selNodes : List Node) (axisX band : ℚ) :
    Layer × List Node :=
  let seamNodes := selNodes.filter (isSeamNodeH axisX band)
  if seamNodes ≠ [] then (layer, seamNodes)
  else if (allNodes layer).any (isSeamNodeH axisX band) then
    let layer2 := autoSelectH layer axisX band
    (layer2, (selectedNodes layer2).filter (isSeamNodeH axisX band))
  else (layer, [])

/-- _collect_vertical_seam_nodes from Mirror.py. -/
def collectVSeamNodes (layer : Layer) (selNodes : List Node) (axisY band : ℚ) :
    Layer × List Node :=
  let seamNodes := selNodes.filter (isSeamNodeV axisY band)
  if seamNodes ≠ [] then (layer, seamNodes)
  else if (allNodes layer).any (isSeamNodeV axisY band) then
    let layer2 := autoSelectV layer axisY band
    (layer2, (selectedNodes layer2).filter (isSeamNodeV axisY band))
  else (layer, [])

/-- Arithmetic mean of a rational list (0 for the empty list). -/
def mean (l : List ℚ) : ℚ :=
  l.sum / l.length

/-- The snap loop of mirrorHorizontal: overwrite the x coordinate of
every on-curve node within the band of axisX with avg. -/
def snapH (layer : Layer) (axisX band avg : ℚ) : Layer :=
  layer.map fun p => p.map fun n =>
    if isSeamNodeH axisX band n then { n with x := avg } else n

/-- The snap loop of mirrorVertical. -/
def snapV (layer : Layer) (axisY band avg : ℚ) : Layer :=
  layer.map fun p => p.map fun n =>
    if isSeamNodeV axisY band n then { n with y := avg } else n

/-- Conversion of a GSNode to the geometry-module Point. -/
def toPoint (n : Node) : Point :=
  ⟨n.x, n.y, n.onCurve⟩

/-- The deletion loop of mirrorHorizontal: in a path containing a
selected node, delete every unselected node strictly beyond the seam on
the opposite side (x > axis + eps for a left source, x < axis - eps for
a right source); paths without selected nodes are skipped. -/
def trimH (side : HSide) (axisX eps : ℚ) (p : GPath) : GPath :=
  if p.any fun n => n.selected then
    p.filter fun n =>
      n.selected ||
        (match side with
         | .left => decide (n.x ≤ axisX + eps)
         | .right => decide (axisX - eps ≤ n.x))
  else p

/-- The deletion loop of mirrorVertical (delete below the seam for a top
source, above it for a bottom source). -/
def trimV (side : VSide) (axisY eps : ℚ) (p : GPath) : GPath :=
  if p.any fun n => n.selected then
    p.filter fun n =>
      n.selected ||
        (match side with
         | .top => decide (axisY - eps ≤ n.y)
         | .bottom => decide (n.y ≤ axisY + eps))
  else p

/-- applyTransform (-1, 0, 0, 1, 2 axisX, 0) on a copied node followed by
clearing its selected flag. -/
def reflectNodeH (axisX : ℚ) (n : Node) : Node :=
  { n with x := 2 * axisX - n.x, selected := false }

/-- applyTransform (1, 0, 0, -1, 0, 2 axisY) on a copied node followed by
clearing its selected flag. -/
def reflectNodeV (axisY : ℚ) (n : Node) : Node :=
  { n with y := 2 * axisY - n.y, selected := false }

/-- mirrorHorizontal from Mirror.py, as a pure function from the layer to
the rebuilt layer plus an optional error.  Mutation of node positions in
place is modelled by returning the updated layer; the Python method keeps
node references alive across steps, which a value model reproduces by
recomputing the selection from the current layer.  The trailing
removeOverlap and correctPathDirection calls are host-engine work outside
the modelled core. -/
def mirrorHorizontalUI (layer : Layer) (side : HSide) (autoSnap : Bool) :
    Layer × Option UIError :=
  let selNodes := selectedNodes layer
  if selNodes = [] then (layer, some .noNodesSelected)
  else
    let axisX := seamAxisH side selNodes
    let c1 := collectHSeamNodes layer selNodes axisX snapBand
    if c1.2 = [] then (c1.1, some .noSeamPoints)
    else
      let s :=
        if autoSnap then
          let avg := mean (c1.2.map fun n => n.x)
          let layerS := snapH c1.1 axisX snapBand avg
          let c2 := collectHSeamNodes layerS (selectedNodes layerS) avg snapBand
          (c2.1, avg, c2.2)
        else (c1.1, axisX, c1.2)
      if s.2.2 = [] then (s.1, some .noSeamPoints)
      else
        let pts := (selectedNodes s.1).map toPoint
        let seamPts := find_seam_points pts s.2.1 snapBand true
        if seamPts = [] then (s.1, some .noSeamPoints)
        else
          match validate_seam_alignment seamPts true epsTol with
          | .error _ => (s.1, some .seamValidationFailed)
          | .ok alignedX =>
              let pathsWithSel := s.1.filter fun p => p.any fun n => n.selected
              if pathsWithSel = [] then (s.1, some .noNodesSelected)
              else
                let trimmed := s.1.map (trimH side alignedX epsTol)
                let newPaths := pathsWithSel.map fun p =>
                  (trimH side alignedX epsTol p).map (reflectNodeH alignedX)
                (trimmed ++ newPaths, none)

/-- mirrorVertical from Mirror.py, modelled like mirrorHorizontalUI. -/
def mirrorVerticalUI (layer : Layer) (side : VSide) (autoSnap : Bool) :
    Layer × Option UIError :=
  let selNodes := selectedNodes layer
  if selNodes = [] then (layer, some .noNodesSelected)
  else
    let axisY := seamAxisV side selNodes
    let c1 := collectVSeamNodes layer selNodes axisY snapBand
    if c1.2 = [] then (c1.1, some .noSeamPoints)
    else
      let s :=
        if autoSnap then
          let avg := mean (c1.2.map fun n => n.y)
          let layerS := snapV c1.1 axisY snapBand avg
          let c2 := collectVSeamNodes layerS (selectedNodes layerS) avg snapBand
          (c2.1, avg, c2.2)
        else (c1.1, axisY, c1.2)
      if s.2.2 = [] then (s.1, some .noSeamPoints)
      else
        let pts := (selectedNodes s.1).map toPoint
        let seamPts := find_seam_points pts s.2.1 snapBand false
        if seamPts = [] then (s.1, some .noSeamPoints)
        else
          match validate_seam_alignment seamPts false epsTol with
          | .error _ => (s.1, some .seamValidationFailed)
          | .ok alignedY =>
              let pathsWithSel := s.1.filter fun p => p.any fun n => n.selected
              if pathsWithSel = [] then (s.1, some .noNodesSelected)
              else
                let trimmed := s.1.map (trimV side alignedY epsTol)
                let newPaths := pathsWithSel.map fun p =>
                  (trimV side alignedY epsTol p).map (reflectNodeV alignedY)
                (trimmed ++ newPaths, none)

/-- The geometric content of a layer: the node positions, with flags
stripped, path by path. -/
def positions (layer : Layer) : List (List (ℚ × ℚ)) :=
  layer.map fun p => p.map fun n => (n.x, n.y)

/-- The selected seam nodes used by the snap step to compute its mean. -/
def seamSelNodesH (layer : Layer) (axisX band : ℚ) : List Node :=
  (selectedNodes layer).filter (isSeamNodeH axisX band)

/-- Modelled from the spec: the SeamSnapper of section 4.4, which is not
a separate function in the source (Mirror.py inlines a variant of it).
It collects the on-curve points within the band of the seam value; with
none collected it returns the input unchanged, otherwise it overwrites
the along-axis coordinate of each collected point with the arithmetic
mean of their along-axis coordinates and returns that mean.  Along-axis
here is x (vertical seam). -/
def seamSnapperSpecH (points : List Node) (seamValue band : ℚ) :
    List Node × ℚ :=
  let collected := points.filter (isSeamNodeH seamValue band)
  if collected = [] then (points, seamValue)
  else
    let m := mean (collected.map fun n => n.x)
    (points.map fun n =>
      if isSeamNodeH seamValue band n then { n with x := m } else n, m)

/-! Concrete inputs used by the theorems below. -/

/-- The spec scenario triangle, as geometry-module points. -/
def triPoints : List Point := [⟨-10, 0, true⟩, ⟨0, 10, true⟩, ⟨0, 0, true⟩]

/-- The spec scenario triangle, as marked (selected) layer nodes. -/
def triNodes : List Node :=
  [⟨-10, 0, true, true⟩, ⟨0, 10, true, true⟩, ⟨0, 0, true, true⟩]

/-- The list mirror_horizontal returns on the triangle scenario. -/
def triResult : List Point :=
  [⟨-10, 0, true⟩, ⟨0, 10, true⟩, ⟨0, 0, true⟩,
   ⟨10, 0, true⟩, ⟨0, 10, true⟩, ⟨0, 0, true⟩]

/-- The mirrored triangle the c1 witness computes with mirror_vertical. -/
def triResultV : List Point :=
  [⟨-10, 0, true⟩, ⟨0, 10, true⟩, ⟨0, 0, true⟩,
   ⟨-10, 0, true⟩, ⟨0, -10, true⟩, ⟨0, 0, true⟩]

/-- An input with exactly one seam anchor, taken from the repository
test test_with_handles_vertical, which expects it to succeed. -/
def c4pts : List Point := [⟨0, 100, true⟩, ⟨5, 105, false⟩, ⟨10, 110, true⟩]

/-- The successful output of mirror_vertical on c4pts. -/
def c4result : List Point :=
  [⟨0, 100, true⟩, ⟨5, 105, false⟩, ⟨10, 110, true⟩,
   ⟨0, 100, true⟩, ⟨5, 95, false⟩, ⟨10, 90, true⟩]

/-- A marked selection whose second point lies beyond the seam on the
opposite side; the geometry module silently drops it. -/
def c5pts : List Point := [⟨0, 0, true⟩, ⟨10, 5, true⟩]

/-- A trim-step path for the c5 witness. -/
def c5wPath : GPath := [⟨0, 0, true, true⟩, ⟨10, 5, true, false⟩]

/-- A layer whose snapped seam nodes pass the band test around the
snapped axis while a third selected node fails alignment: validation
fails only after the snap has already moved nodes. -/
def c6L : Layer := [[⟨0, 0, true, true⟩, ⟨-4, 1, true, true⟩, ⟨-13/2, 2, true, true⟩]]

/-- The layer state mirrorHorizontal leaves behind on c6L: the first two
nodes were snapped to x = -2 before validation failed. -/
def c6Snapped : Layer :=
  [[⟨-2, 0, true, true⟩, ⟨-2, 1, true, true⟩, ⟨-13/2, 2, true, true⟩]]

/-- A misaligned selection that fails validation with snapping disabled. -/
def c6wL : Layer := [[⟨0, 0, true, true⟩, ⟨1, 0, true, true⟩]]

/-- A layer with one selected and one unselected on-curve node in the
seam band: the snap mean ignores the unselected node. -/
def c7L : Layer := [[⟨0, 0, true, true⟩, ⟨4, 0, true, false⟩]]

/-- A layer whose only selected node is off-curve and which has no
on-curve node in the seam band at all. -/
def c7wL : Layer := [[⟨0, 0, false, true⟩]]

/-- An input whose two seam anchors are eps-close but unequal, so the
resolved seam is their mean and no result point sits exactly on it. -/
def c8pts : List Point := [⟨0, 0, true⟩, ⟨1/100, 10, true⟩]

/-- The output of mirror_horizontal on c8pts. -/
def c8res : List Point :=
  [⟨0, 0, true⟩, ⟨1/100, 10, true⟩, ⟨1/100, 0, true⟩, ⟨0, 10, true⟩]

/-- A seam-only selection: both marked nodes sit exactly on the seam,
the third node is unmarked and on the opposite side. -/
def c9L : Layer := [[⟨0, 0, true, true⟩, ⟨0, 10, true, true⟩, ⟨8, 5, true, false⟩]]

/-- What mirrorHorizontal makes of c9L: the unmarked node is deleted and
a mirrored copy of the trimmed path is appended. -/
def c9Result : Layer :=
  [[⟨0, 0, true, true⟩, ⟨0, 10, true, true⟩],
   [⟨0, 0, true, false⟩, ⟨0, 10, true, false⟩]]

/-- A seam-only selection for the c9 witness. -/
def c9wL : Layer := [[⟨0, 0, true, true⟩, ⟨0, 10, true, true⟩]]

/-- The four rhombus points of the spec scenario, in the spec order. -/
def rhombusPts : List Point :=
  [⟨-10, 0, true⟩, ⟨0, 10, true⟩, ⟨10, 0, true⟩, ⟨0, 0, true⟩]

/-- A marked node list for the c3 witness. -/
def c3sel : List Node := [⟨1, 2, true, true⟩, ⟨3, 0, false, false⟩]

/-- An aligned two-point seam list for the c10 witness. -/
def c10sp : List Point := [⟨0, 0, true⟩, ⟨1, 1, true⟩]

/-! Helper lemmas. -/

lemma rabs_eq_abs (a : ℚ) : rabs a = |a| := by
  unfold rabs
  rcases lt_or_ge a 0 with h | h
  · rw [if_pos h, abs_of_neg h]
  · rw [if_neg (not_lt.mpr h), abs_of_nonneg h]

lemma foldl_max_init_le (l : List ℚ) (a : ℚ) : a ≤ l.foldl max a := by
  induction l generalizing a with
  | nil => simp
  | cons b t ih => exact le_trans (le_max_left a b) (ih (max a b))

lemma le_foldl_max_of_mem {l : List ℚ} {b : ℚ} (h : b ∈ l) (a : ℚ) :
    b ≤ l.foldl max a := by
  induction l generalizing a with
  | nil => cases h
  | cons c t ih =>
      rcases List.mem_cons.mp h with rfl | h2
      · exact le_trans (le_max_right a b) (foldl_max_init_le t _)
      · exact ih h2 _

lemma foldl_max_mem (l : List ℚ) (a : ℚ) : l.foldl max a = a ∨ l.foldl max a ∈ l := by
  induction l generalizing a with
  | nil => left; rfl
  | cons b t ih =>
      rcases ih (max a b) with h | h
      · rw [List.foldl_cons, h]
        rcases max_choice a b with h2 | h2
        · left; exact h2
        · right; rw [h2]; exact List.mem_cons_self b t
      · right; exact List.mem_cons_of_mem b h

lemma foldl_min_le_init (l : List ℚ) (a : ℚ) : l.foldl min a ≤ a := by
  induction l generalizing a with
  | nil => simp
  | cons b t ih => exact le_trans (ih (min a b)) (min_le_left a b)

lemma foldl_min_le_of_mem {l : List ℚ} {b : ℚ} (h : b ∈ l) (a : ℚ) :
    l.foldl min a ≤ b := by
  induction l generalizing a with
  | nil => cases h
  | cons c t ih =>
      rcases List.mem_cons.mp h with rfl | h2
      · exact le_trans (foldl_min_le_init t _) (min_le_right a b)
      · exact ih h2 _

lemma foldl_min_mem (l : List ℚ) (a : ℚ) : l.foldl min a = a ∨ l.foldl min a ∈ l := by
  induction l generalizing a with
  | nil => left; rfl
  | cons b t ih =>
      rcases ih (min a b) with h | h
      · rw [List.foldl_cons, h]
        rcases min_choice a b with h2 | h2
        · left; exact h2
        · right; rw [h2]; exact List.mem_cons_self b t
      · right; exact List.mem_cons_of_mem b h

lemma listMax_mem {l : List ℚ} (h : l ≠ []) : listMax l ∈ l := by
  cases l with
  | nil => exact absurd rfl h
  | cons a t =>
      rcases foldl_max_mem t a with h2 | h2
      · rw [listMax, h2]; exact List.mem_cons_self a t
      · exact List.mem_cons_of_mem a h2

lemma le_listMax {l : List ℚ} {b : ℚ} (h : b ∈ l) : b ≤ listMax l := by
  cases l with
  | nil => cases h
  | cons a t =>
      rcases List.mem_cons.mp h with rfl | h2
      · exact foldl_max_init_le t b
      · exact le_foldl_max_of_mem h2 a

lemma listMin_mem {l : List ℚ} (h : l ≠ []) : listMin l ∈ l := by
  cases l with
  | nil => exact absurd rfl h
  | cons a t =>
      rcases foldl_min_mem t a with h2 | h2
      · rw [listMin, h2]; exact List.mem_cons_self a t
      · exact List.mem_cons_of_mem a h2

lemma listMin_le {l : List ℚ} {b : ℚ} (h : b ∈ l) : listMin l ≤ b := by
  cases l with
  | nil => cases h
  | cons a t =>
      rcases List.mem_cons.mp h with rfl | h2
      · exact foldl_min_le_init t b
      · exact foldl_min_le_of_mem h2 a

lemma listMax_const {l : List ℚ} {c : ℚ} (hne : l ≠ []) (h : ∀ a ∈ l, a = c) :
    listMax l = c :=
  h _ (listMax_mem hne)

lemma listMin_const {l : List ℚ} {c : ℚ} (hne : l ≠ []) (h : ∀ a ∈ l, a = c) :
    listMin l = c :=
  h _ (listMin_mem hne)

lemma validate_nil (cx : Bool) (eps : ℚ) :
    validate_seam_alignment [] cx eps = .error .noSeamPoints := rfl

lemma validate_cons (p : Point) (t : List Point) (cx : Bool) (eps : ℚ) :
    validate_seam_alignment (p :: t) cx eps =
      if (t.map (coordOf cx)).all (fun c => almost_equal c (coordOf cx p) eps) then
        .ok (((p :: t).map (coordOf cx)).sum / ((p :: t).map (coordOf cx)).length)
      else .error .seamAlignment := rfl

lemma validate_cons_ne_noSeamPoints (p : Point) (t : List Point) (cx : Bool) (eps : ℚ) :
    validate_seam_alignment (p :: t) cx eps ≠ .error .noSeamPoints := by
  rw [validate_cons]
  split <;> simp

lemma validate_noSeamPoints_iff (sp : List Point) (cx : Bool) (eps : ℚ) :
    validate_seam_alignment sp cx eps = .error .noSeamPoints ↔ sp = [] := by
  cases sp with
  | nil => simp [validate_nil]
  | cons p t => simp [validate_cons_ne_noSeamPoints]

lemma abs_sum_sub_mul_le (l : List ℚ) (r eps : ℚ) (h : ∀ c ∈ l, |c - r| ≤ eps) :
    |l.sum - l.length * r| ≤ l.length * eps := by
  induction l with
  | nil => simp
  | cons c t ih =>
      have hc := h c (List.mem_cons_self c t)
      have ht := ih fun d hd => h d (List.mem_cons_of_mem c hd)
      have hsplit : (c :: t).sum - ((c :: t).length : ℚ) * r =
          (c - r) + (t.sum - (t.length : ℚ) * r) := by
        simp [List.sum_cons, List.length_cons]
        ring
      rw [hsplit]
      calc |(c - r) + (t.sum - (t.length : ℚ) * r)|
          ≤ |c - r| + |t.sum - (t.length : ℚ) * r| := abs_add _ _
        _ ≤ eps + (t.length : ℚ) * eps := add_le_add hc ht
        _ = ((c :: t).length : ℚ) * eps := by
            simp [List.length_cons]
            ring

lemma abs_mean_sub_le (l : List ℚ) (r eps : ℚ) (hne : l ≠ [])
    (h : ∀ c ∈ l, |c - r| ≤ eps) : |l.sum / l.length - r| ≤ eps := by
  have hlen : (0 : ℚ) < l.length := by
    exact_mod_cast List.length_pos.mpr hne
  have hkey := abs_sum_sub_mul_le l r eps h
  have heq : l.sum / l.length - r = (l.sum - l.length * r) / l.length := by
    field_simp
  rw [heq, abs_div, abs_of_pos hlen, div_le_iff₀ hlen]
  linarith [hkey]

lemma mem_allNodes_of_mem_selectedNodes {layer : Layer} {n : Node}
    (h : n ∈ selectedNodes layer) : n ∈ allNodes layer := by
  simp only [selectedNodes, List.mem_flatten, List.mem_map] at h
  obtain ⟨l, ⟨p, hp, rfl⟩, hn⟩ := h
  simp only [allNodes, List.mem_flatten]
  exact ⟨p, hp, (List.mem_filter.mp hn).1⟩

lemma pathsWithSel_ne_nil {layer : Layer} (h : selectedNodes layer ≠ []) :
    layer.filter (fun p => p.any fun n => n.selected) ≠ [] := by
  obtain ⟨n, hn⟩ := List.exists_mem_of_ne_nil _ h
  simp only [selectedNodes, List.mem_flatten, List.mem_map] at hn
  obtain ⟨l, ⟨p, hp, rfl⟩, hnl⟩ := hn
  have hpf := List.mem_filter.mp hnl
  have hany : p.any (fun n => n.selected) = true :=
    List.any_eq_true.mpr ⟨n, hpf.1, hpf.2⟩
  exact List.ne_nil_of_mem (List.mem_filter.mpr ⟨hp, hany⟩)

lemma map_map_positions {g : Node → Node} (hg : ∀ n, ((g n).x, (g n).y) = (n.x, n.y))
    (layer : Layer) : positions (layer.map fun p => p.map g) = positions layer := by
  simp only [positions, List.map_map]
  apply List.map_congr_left
  intro p _
  simp only [Function.comp_apply, List.map_map]
  apply List.map_congr_left
  intro n _
  exact hg n

lemma positions_autoSelectH (layer : Layer) (axisX band : ℚ) :
    positions (autoSelectH layer axisX band) = positions layer := by
  unfold autoSelectH
  exact map_map_positions
    (fun n => by by_cases h : isSeamNodeH axisX band n <;> simp [h]) layer

lemma positions_autoSelectV (layer : Layer) (axisY band : ℚ) :
    positions (autoSelectV layer axisY band) = positions layer := by
  unfold autoSelectV
  exact map_map_positions
    (fun n => by by_cases h : isSeamNodeV axisY band n <;> simp [h]) layer

lemma positions_collectH_fst (layer : Layer) (sel : List Node) (axisX band : ℚ) :
    positions (collectHSeamNodes layer sel axisX band).1 = positions layer := by
  simp only [collectHSeamNodes]
  split
  · rfl
  · split
    · exact positions_autoSelectH layer axisX band
    · rfl

lemma positions_collectV_fst (layer : Layer) (sel : List Node) (axisY band : ℚ) :
    positions (collectVSeamNodes layer sel axisY band).1 = positions layer := by
  simp only [collectVSeamNodes]
  split
  · rfl
  · split
    · exact positions_autoSelectV layer axisY band
    · rfl

lemma mirror_horizontal_eq (pts : List Point) (axX : ℚ) (hs : HSide) (eps band : ℚ) :
    mirror_horizontal pts axX hs eps band =
      if find_seam_points pts axX band true = [] then .error .noSeamPoints
      else
        match validate_seam_alignment (find_seam_points pts axX band true) true eps with
        | .error e => .error e
        | .ok a =>
            .ok (sourceH pts hs a eps ++ (sourceH pts hs a eps).map (reflectX a)) := rfl

lemma mirror_vertical_eq (pts : List Point) (axY : ℚ) (vs : VSide) (eps band : ℚ) :
    mirror_vertical pts axY vs eps band =
      if find_seam_points pts axY band false = [] then .error .noSeamPoints
      else
        match validate_seam_alignment (find_seam_points pts axY band false) false eps with
        | .error e => .error e
        | .ok a =>
            .ok (sourceV pts vs a eps ++ (sourceV pts vs a eps).map (reflectY a)) := rfl

lemma trim_filter_core (p : GPath) (keep : Node → Bool) :
    ((if p.any (fun n => n.selected) then
          p.filter (fun n => n.selected || keep n) else p).filter
        (fun n => n.selected) = p.filter (fun n => n.selected)) ∧
    ∀ n ∈ p,
      n ∉ (if p.any (fun n => n.selected) then
            p.filter (fun n => n.selected || keep n) else p) →
        n.selected = false ∧ keep n = false := by
  split
  · constructor
    · rw [List.filter_filter]
      apply List.filter_congr
      intro n _
      cases hsel : n.selected <;> simp [hsel]
    · intro n hn hnot
      have hk : ¬(n.selected || keep n) = true := fun hkeep =>
        hnot (List.mem_filter.mpr ⟨hn, hkeep⟩)
      simp only [Bool.or_eq_true, not_or] at hk
      exact ⟨by simpa using hk.1, by simpa using hk.2⟩
  · exact ⟨rfl, fun n hn hnot => absurd hn hnot⟩

/-- C10: validate_seam_alignment raises NoSeamPointsError exactly on the
empty list; on a non-empty list it raises SeamAlignmentError iff some
later coordinate differs from the FIRST coordinate by more than eps (the
comparison is only against the first point, so two non-first coordinates
may differ from each other by up to 2 eps and still be accepted, as the
final conjunct exhibits at spread exactly 2 eps); on success it returns
the arithmetic mean of the coordinates. -/
theorem c10_validate_characterization :
    (∀ (sp : List Point) (cx : Bool) (eps : ℚ),
        validate_seam_alignment sp cx eps = .error .noSeamPoints ↔ sp = []) ∧
    (∀ (sp : List Point) (cx : Bool) (eps : ℚ), sp ≠ [] →
        (validate_seam_alignment sp cx eps = .error .seamAlignment ↔
          ∃ c ∈ (sp.map (coordOf cx)).tail,
            eps < rabs (c - (sp.map (coordOf cx)).headI)) ∧
        ((∀ c ∈ (sp.map (coordOf cx)).tail,
            rabs (c - (sp.map (coordOf cx)).headI) ≤ eps) →
          validate_seam_alignment sp cx eps =
            .ok ((sp.map (coordOf cx)).sum / (sp.map (coordOf cx)).length))) ∧
    validate_seam_alignment [⟨0, 0, true⟩, ⟨1/100, 0, true⟩, ⟨-1/100, 1, true⟩]
        true (1/100) = .ok 0 := by
  refine ⟨validate_noSeamPoints_iff, ?_, by
    norm_num [validate_seam_alignment, almost_equal, coordOf, rabs]⟩
  intro sp cx eps hne
  cases sp with
  | nil => exact absurd rfl hne
  | cons p t =>
      rw [validate_cons]
      simp only [List.map_cons, List.tail_cons, List.headI_cons]
      by_cases hall : (t.map (coordOf cx)).all fun c => almost_equal c (coordOf cx p) eps
      · rw [if_pos hall]
        constructor
        · constructor
          · intro h; cases h
          · intro ⟨c, hc, hgt⟩
            have := List.all_eq_true.mp hall c hc
            simp only [almost_equal, decide_eq_true_eq] at this
            exact absurd hgt (not_lt.mpr this)
        · intro _; rfl
      · rw [if_neg hall]
        constructor
        · constructor
          · intro _
            rw [List.all_eq_true] at hall
            push_neg at hall
            obtain ⟨c, hc, hne2⟩ := hall
            simp only [ne_eq, almost_equal, decide_eq_true_eq] at hne2
            exact ⟨c, hc, lt_of_not_ge hne2⟩
          · intro _; rfl
        · intro hok
          exfalso
          apply hall
          rw [List.all_eq_true]
          intro c hc
          simp only [almost_equal, decide_eq_true_eq]
          exact hok c hc

/-- C10 witness: the characterization applied to a concrete two-point
seam list with spread 1 and eps 2, which is accepted with mean 1/2. -/
theorem c10_witness :
    (validate_seam_alignment c10sp true 2 = .error .seamAlignment ↔
      ∃ c ∈ (c10sp.map (coordOf true)).tail,
        (2:ℚ) < rabs (c - (c10sp.map (coordOf true)).headI)) ∧
    ((∀ c ∈ (c10sp.map (coordOf true)).tail,
        rabs (c - (c10sp.map (coordOf true)).headI) ≤ 2) →
      validate_seam_alignment c10sp true 2 =
        .ok ((c10sp.map (coordOf true)).sum / (c10sp.map (coordOf true)).length)) :=
  c10_validate_characterization.2.1 c10sp true 2 (by simp [c10sp])

/-- C4 counterexample: the input of the repository test
test_with_handles_vertical has exactly ONE on-curve point within
SNAP_BAND of the seam, yet mirror_vertical succeeds instead of failing
for lack of two seam anchors. -/
theorem c4_counterexample :
    (find_seam_points c4pts 100 5 false).length = 1 ∧
    mirror_vertical c4pts 100 .top (1/100) 5 = .ok c4result := by
  norm_num [mirror_vertical, find_seam_points, validate_seam_alignment, almost_equal,
    coordOf, sourceV, reflectY, rabs, c4pts, c4result, List.cons_ne_nil]

/-- C4 amended: the mirroring operations fail for lack of seam anchors
exactly when ZERO on-curve points lie within the band of the axis; a
single seam anchor is accepted. -/
theorem c4_amended :
    ∀ (pts : List Point) (axX axY eps band : ℚ) (hs : HSide) (vs : VSide),
    (mirror_horizontal pts axX hs eps band = .error .noSeamPoints ↔
        find_seam_points pts axX band true = []) ∧
    (mirror_vertical pts axY vs eps band = .error .noSeamPoints ↔
        find_seam_points pts axY band false = []) := by
  intro pts axX axY eps band hs vs
  constructor
  · rw [mirror_horizontal_eq]
    cases hsp : find_seam_points pts axX band true with
    | nil => simp
    | cons q t =>
        simp only [List.cons_ne_nil, if_false, iff_false]
        cases hv : validate_seam_alignment (q :: t) true eps with
        | error e =>
            cases e with
            | noSeamPoints => exact absurd hv (validate_cons_ne_noSeamPoints q t true eps)
            | seamAlignment => simp
        | ok a => simp
  · rw [mirror_vertical_eq]
    cases hsp : find_seam_points pts axY band false with
    | nil => simp
    | cons q t =>
        simp only [List.cons_ne_nil, if_false, iff_false]
        cases hv : validate_seam_alignment (q :: t) false eps with
        | error e =>
            cases e with
            | noSeamPoints => exact absurd hv (validate_cons_ne_noSeamPoints q t false eps)
            | seamAlignment => simp
        | ok a => simp

/-- C1: whenever a mirroring operation accepts its input, the result is
the kept source sublist followed by its pointwise reflection, every
mirrored point carrying the along-axis coordinate 2 a - v (a being the
aligned seam value returned by seam validation), the unchanged cross-axis
coordinate and the unchanged on-curve flag of its source point. -/
theorem c1_mirror_is_affine_reflection :
    ∀ (pts : List Point) (axX axY eps band : ℚ) (hs : HSide) (vs : VSide)
      (resH resV : List Point),
    (mirror_horizontal pts axX hs eps band = .ok resH →
      ∃ a, validate_seam_alignment (find_seam_points pts axX band true) true eps
            = .ok a ∧
        resH = sourceH pts hs a eps ++
          (sourceH pts hs a eps).map fun p => Point.mk (2 * a - p.x) p.y p.on_curve) ∧
    (mirror_vertical pts axY vs eps band = .ok resV →
      ∃ a, validate_seam_alignment (find_seam_points pts axY band false) false eps
            = .ok a ∧
        resV = sourceV pts vs a eps ++
          (sourceV pts vs a eps).map fun p => Point.mk p.x (2 * a - p.y) p.on_curve) := by
  intro pts axX axY eps band hs vs resH resV
  constructor
  · rw [mirror_horizontal_eq]
    split
    · intro h; cases h
    · cases hv : validate_seam_alignment (find_seam_points pts axX band true) true eps with
      | error e => intro h; cases h
      | ok a =>
          intro h
          exact ⟨a, rfl, (Except.ok.inj h).symm⟩
  · rw [mirror_vertical_eq]
    split
    · intro h; cases h
    · cases hv : validate_seam_alignment (find_seam_points pts axY band false) false eps with
      | error e => intro h; cases h
      | ok a =>
          intro h
          exact ⟨a, rfl, (Except.ok.inj h).symm⟩

/-- C1 witness: the reflection decomposition instantiated on the
triangle scenario, horizontally and vertically. -/
theorem c1_witness :
    (∃ a, validate_seam_alignment (find_seam_points triPoints 0 5 true) true (1/100)
          = .ok a ∧
      triResult = sourceH triPoints .left a (1/100) ++
        (sourceH triPoints .left a (1/100)).map
          fun p => Point.mk (2 * a - p.x) p.y p.on_curve) ∧
    (∃ a, validate_seam_alignment (find_seam_points triPoints 0 5 false) false (1/100)
          = .ok a ∧
      triResultV = sourceV triPoints .top a (1/100) ++
        (sourceV triPoints .top a (1/100)).map
          fun p => Point.mk p.x (2 * a - p.y) p.on_curve) :=
  ⟨(c1_mirror_is_affine_reflection triPoints 0 0 (1/100) 5 .left .top
      triResult triResultV).1 (by
        norm_num [mirror_horizontal, find_seam_points, validate_seam_alignment,
          almost_equal, coordOf, sourceH, reflectX, rabs, triPoints, triResult,
          List.cons_ne_nil]),
   (c1_mirror_is_affine_reflection triPoints 0 0 (1/100) 5 .left .top
      triResult triResultV).2 (by
        norm_num [mirror_vertical, find_seam_points, validate_seam_alignment,
          almost_equal, coordOf, sourceV, reflectY, rabs, triPoints, triResultV,
          List.cons_ne_nil])⟩

/-- C2: on the spec triangle the seam resolves to x = 0, the maximum x of
the marked points, and the mirrored output consists of exactly the four
rhombus points (-10,0), (0,10), (10,0), (0,0) once the duplicated seam
points are deduplicated (the raw list has six entries, the two seam
points appearing once per half). -/
theorem c2_triangle_scenario :
    seamAxisH .left triNodes = 0 ∧
    mirror_horizontal triPoints 0 .left (1/100) 5 = .ok triResult ∧
    (∀ p : Point, p ∈ triResult ↔ p ∈ rhombusPts) ∧
    rhombusPts.Nodup ∧ rhombusPts.length = 4 := by
  refine ⟨by norm_num [seamAxisH, listMax, triNodes], ?_, ?_, ?_, rfl⟩
  · norm_num [mirror_horizontal, find_seam_points, validate_seam_alignment,
      almost_equal, coordOf, sourceH, reflectX, rabs, triPoints, triResult,
      List.cons_ne_nil]
  · intro p
    simp only [triResult, rhombusPts, List.mem_cons, List.not_mem_nil, or_false]
    tauto
  · norm_num [rhombusPts, List.nodup_cons, List.mem_cons, Point.mk.injEq]

/-- C3: on a non-empty marked node list the seam axis is the extreme
along-axis coordinate of the marked points on the side facing the
unmarked half: maximum x for Vertical/Left, minimum x for
Vertical/Right, minimum y for Horizontal/Top, maximum y for
Horizontal/Bottom; in each case the value is attained by a marked point. -/
theorem c3_seam_locator (sel : List Node) (h : sel ≠ []) :
    (seamAxisH .left sel ∈ sel.map (fun n => n.x) ∧
      ∀ n ∈ sel, n.x ≤ seamAxisH .left sel) ∧
    (seamAxisH .right sel ∈ sel.map (fun n => n.x) ∧
      ∀ n ∈ sel, seamAxisH .right sel ≤ n.x) ∧
    (seamAxisV .top sel ∈ sel.map (fun n => n.y) ∧
      ∀ n ∈ sel, seamAxisV .top sel ≤ n.y) ∧
    (seamAxisV .bottom sel ∈ sel.map (fun n => n.y) ∧
      ∀ n ∈ sel, n.y ≤ seamAxisV .bottom sel) := by
  have hx : sel.map (fun n => n.x) ≠ [] := by simpa using h
  have hy : sel.map (fun n => n.y) ≠ [] := by simpa using h
  refine ⟨⟨listMax_mem hx, ?_⟩, ⟨listMin_mem hx, ?_⟩,
    ⟨listMin_mem hy, ?_⟩, ⟨listMax_mem hy, ?_⟩⟩
  · exact fun n hn => le_listMax (List.mem_map_of_mem _ hn)
  · exact fun n hn => listMin_le (List.mem_map_of_mem _ hn)
  · exact fun n hn => listMin_le (List.mem_map_of_mem _ hn)
  · exact fun n hn => le_listMax (List.mem_map_of_mem _ hn)

/-- C3 witness: the seam locator characterization on a concrete
two-node selection. -/
theorem c3_witness :
    (seamAxisH .left c3sel ∈ c3sel.map (fun n => n.x) ∧
      ∀ n ∈ c3sel, n.x ≤ seamAxisH .left c3sel) ∧
    (seamAxisH .right c3sel ∈ c3sel.map (fun n => n.x) ∧
      ∀ n ∈ c3sel, seamAxisH .right c3sel ≤ n.x) ∧
    (seamAxisV .top c3sel ∈ c3sel.map (fun n => n.y) ∧
      ∀ n ∈ c3sel, seamAxisV .top c3sel ≤ n.y) ∧
    (seamAxisV .bottom c3sel ∈ c3sel.map (fun n => n.y) ∧
      ∀ n ∈ c3sel, n.y ≤ seamAxisV .bottom c3sel) :=
  c3_seam_locator c3sel (by simp [c3sel])

/-- C5 counterexample: a marked point lying beyond eps on the opposite
side of the aligned seam is silently dropped by mirror_horizontal (the
geometry module receives exactly the marked points): the marked point
(10,5) is in the input but in neither half of the output. -/
theorem c5_counterexample :
    mirror_horizontal c5pts 0 .left (1/100) 5 = .ok [⟨0, 0, true⟩, ⟨0, 0, true⟩] ∧
    (⟨10, 5, true⟩ : Point) ∈ c5pts ∧
    (⟨10, 5, true⟩ : Point) ∉ [(⟨0, 0, true⟩ : Point), ⟨0, 0, true⟩] := by
  refine ⟨?_, by simp [c5pts], by simp⟩
  norm_num [mirror_horizontal, find_seam_points, validate_seam_alignment,
    almost_equal, coordOf, sourceH, reflectX, rabs, c5pts, List.cons_ne_nil]

/-- C5 amended: in the trim step of Mirror.py no selected node is ever
deleted (the selected sublist survives unchanged, in order) and a node
can only be deleted when it is unselected AND lies strictly beyond the
seam tolerance on the opposite side; the geometry-module mirror
functions, by contrast, drop marked points beyond eps on the opposite
side, as the counterexample shows. -/
theorem c5_amended :
    ∀ (hs : HSide) (vs : VSide) (axisX axisY eps : ℚ) (p : GPath),
    ((trimH hs axisX eps p).filter (fun n => n.selected) =
        p.filter (fun n => n.selected) ∧
      ∀ n ∈ p, n ∉ trimH hs axisX eps p →
        n.selected = false ∧
          (match hs with
           | .left => axisX + eps < n.x
           | .right => n.x < axisX - eps)) ∧
    ((trimV vs axisY eps p).filter (fun n => n.selected) =
        p.filter (fun n => n.selected) ∧
      ∀ n ∈ p, n ∉ trimV vs axisY eps p →
        n.selected = false ∧
          (match vs with
           | .top => n.y < axisY - eps
           | .bottom => axisY + eps < n.y)) := by
  intro hs vs axisX axisY eps p
  constructor
  · have hc := trim_filter_core p fun n =>
      (match hs with
       | HSide.left => decide (n.x ≤ axisX + eps)
       | HSide.right => decide (axisX - eps ≤ n.x))
    refine ⟨hc.1, ?_⟩
    intro n hn hnot
    have h2 := hc.2 n hn hnot
    refine ⟨h2.1, ?_⟩
    cases hs
    · have h3 : ¬(n.x ≤ axisX + eps) := by simpa using h2.2
      exact lt_of_not_ge h3
    · have h3 : ¬(axisX - eps ≤ n.x) := by simpa using h2.2
      exact lt_of_not_ge h3
  · have hc := trim_filter_core p fun n =>
      (match vs with
       | VSide.top => decide (axisY - eps ≤ n.y)
       | VSide.bottom => decide (n.y ≤ axisY + eps))
    refine ⟨hc.1, ?_⟩
    intro n hn hnot
    have h2 := hc.2 n hn hnot
    refine ⟨h2.1, ?_⟩
    cases vs
    · have h3 : ¬(axisY - eps ≤ n.y) := by simpa using h2.2
      exact lt_of_not_ge h3
    · have h3 : ¬(n.y ≤ axisY + eps) := by simpa using h2.2
      exact lt_of_not_ge h3

/-- C5 witness: the amended trim guarantee applied to a concrete path in
which the unselected node beyond the seam is the one deleted. -/
theorem c5_witness :
    (⟨10, 5, true, false⟩ : Node).selected = false ∧ (0 : ℚ) + 1/100 < 10 := by
  have h := (c5_amended .left .top 0 0 (1/100) c5wPath).1.2
    ⟨10, 5, true, false⟩ (by simp [c5wPath]) (by norm_num [trimH, c5wPath])
  exact ⟨h.1, h.2⟩

/-- C8 counterexample: with seam anchors at x = 0 and x = 1/100 the
resolved seam is their mean 1/200, and the on-curve result point (0,0)
lies within SNAP_BAND of the resolved seam but NOT exactly on it, so
exact seam invariance fails for the geometry module (which never snaps). -/
theorem c8_counterexample :
    mirror_horizontal c8pts 0 .left (1/100) 5 = .ok c8res ∧
    validate_seam_alignment (find_seam_points c8pts 0 5 true) true (1/100)
      = .ok (1/200) ∧
    (⟨0, 0, true⟩ : Point) ∈ c8res ∧
    (⟨0, 0, true⟩ : Point).on_curve = true ∧
    rabs ((⟨0, 0, true⟩ : Point).x - 1/200) ≤ 5 ∧
    (⟨0, 0, true⟩ : Point).x ≠ 1/200 := by
  refine ⟨?_, ?_, by simp [c8res], rfl, by norm_num [rabs], by norm_num⟩
  · norm_num [mirror_horizontal, find_seam_points, validate_seam_alignment,
      almost_equal, coordOf, sourceH, reflectX, rabs, c8pts, c8res,
      List.cons_ne_nil]
  · norm_num [find_seam_points, validate_seam_alignment, almost_equal, coordOf,
      rabs, c8pts]

/-- C8 amended: seam invariance holds only in a weakened, approximate
form: on any accepted input every on-curve input point within SNAP_BAND
of the INPUT axis value has its along-axis coordinate within 2 eps of
the resolved seam value a (the mirrored half being the exact reflection
of the kept half by C1); exact equality with a is not guaranteed. -/
theorem c8_amended (pts : List Point) (axisX eps band : ℚ) (hs : HSide)
    (res : List Point) (a : ℚ) (heps : 0 ≤ eps)
    (_hok : mirror_horizontal pts axisX hs eps band = .ok res)
    (ha : validate_seam_alignment (find_seam_points pts axisX band true) true eps
          = .ok a) :
    ∀ p ∈ pts, p.on_curve = true → rabs (p.x - axisX) ≤ band →
      rabs (p.x - a) ≤ 2 * eps := by
  intro p hp hpc hpb
  have hmem : p ∈ find_seam_points pts axisX band true := by
    simp [find_seam_points, List.mem_filter, hp, hpc, coordOf, hpb]
  cases hq : find_seam_points pts axisX band true with
  | nil => rw [hq] at hmem; cases hmem
  | cons q t =>
      rw [hq] at ha hmem
      rw [validate_cons] at ha
      by_cases hall : (t.map (coordOf true)).all fun c => almost_equal c (coordOf true q) eps
      · rw [if_pos hall] at ha
        have ha2 : a = ((q :: t).map (coordOf true)).sum /
            ((q :: t).map (coordOf true)).length := (Except.ok.inj ha).symm
        have hcoord : ∀ c ∈ (q :: t).map (coordOf true), |c - coordOf true q| ≤ eps := by
          intro c hc
          rw [List.map_cons] at hc
          rcases List.mem_cons.mp hc with rfl | h
          · simpa using heps
          · have := List.all_eq_true.mp hall c h
            simpa [almost_equal, rabs_eq_abs] using this
        have hmean : |a - coordOf true q| ≤ eps := by
          rw [ha2]
          exact abs_mean_sub_le _ _ _ (by simp) hcoord
        have hpx : |p.x - coordOf true q| ≤ eps := by
          have hmm : p.x ∈ (q :: t).map (coordOf true) :=
            List.mem_map.mpr ⟨p, hmem, by simp [coordOf]⟩
          exact hcoord _ hmm
        rw [rabs_eq_abs]
        calc |p.x - a| ≤ |p.x - coordOf true q| + |coordOf true q - a| :=
              abs_sub_le p.x (coordOf true q) a
          _ ≤ eps + eps := add_le_add hpx (abs_sub_comm a (coordOf true q) ▸ hmean)
          _ = 2 * eps := by ring
      · rw [if_neg hall] at ha; cases ha

/-- C8 witness: the weakened seam invariance at the counterexample
input: the resolved seam is 1/200 and the point (0,0) is within 2 eps
of it. -/
theorem c8_witness : rabs ((⟨0, 0, true⟩ : Point).x - 1/200) ≤ 2 * (1/100) :=
  c8_amended c8pts 0 (1/100) 5 .left c8res (1/200) (by norm_num)
    (by norm_num [mirror_horizontal, find_seam_points, validate_seam_alignment,
      almost_equal, coordOf, sourceH, reflectX, rabs, c8pts, c8res,
      List.cons_ne_nil])
    (by norm_num [find_seam_points, validate_seam_alignment, almost_equal, coordOf,
      rabs, c8pts])
    ⟨0, 0, true⟩ (by simp [c8pts]) rfl (by norm_num [rabs])

/-- C7 counterexample: with a selected on-curve seam node at x = 0 and
an unselected on-curve node at x = 4 (both within SNAP_BAND of the
seam 0), the script snap writes 0, the mean of the SELECTED seam nodes
only, onto both nodes and uses 0 as the new seam, whereas the snapper
described by the spec collects both on-curve band points and would
write and return their mean 2. -/
theorem c7_counterexample :
    seamSelNodesH c7L 0 5 = [⟨0, 0, true, true⟩] ∧
    mean ((seamSelNodesH c7L 0 5).map fun n => n.x) = 0 ∧
    snapH c7L 0 5 (mean ((seamSelNodesH c7L 0 5).map fun n => n.x)) =
      [[⟨0, 0, true, true⟩, ⟨0, 0, true, false⟩]] ∧
    seamSnapperSpecH (allNodes c7L) 0 5 =
      ([⟨2, 0, true, true⟩, ⟨2, 0, true, false⟩], 2) ∧
    (0 : ℚ) ≠ 2 := by
  refine ⟨?_, ?_, ?_, ?_, by norm_num⟩ <;>
    norm_num [seamSelNodesH, selectedNodes, isSeamNodeH, rabs, mean, snapH,
      seamSnapperSpecH, allNodes, c7L, List.cons_ne_nil]

/-- C7 amended: the snap step of mirrorHorizontal computes its mean over
the SELECTED on-curve band nodes only, then overwrites the x coordinate
of every on-curve node within SNAP_BAND of the axis, selected or not,
with that mean, leaving all other nodes untouched; and when no on-curve
node of the layer lies within the band at all, the operation aborts with
a no-seam-points error before snapping instead of returning the seam
value unchanged. -/
theorem c7_amended :
    (∀ (layer : Layer) (axisX band : ℚ),
      List.Forall₂ (List.Forall₂ fun m n =>
          if isSeamNodeH axisX band m = true then
            n = { m with x := mean ((seamSelNodesH layer axisX band).map fun k => k.x) }
          else n = m)
        layer
        (snapH layer axisX band
          (mean ((seamSelNodesH layer axisX band).map fun k => k.x)))) ∧
    (∀ (layer : Layer) (side : HSide),
      selectedNodes layer ≠ [] →
      (allNodes layer).filter
          (isSeamNodeH (seamAxisH side (selectedNodes layer)) snapBand) = [] →
      mirrorHorizontalUI layer side true = (layer, some .noSeamPoints)) := by
  constructor
  · intro layer axisX band
    unfold snapH
    rw [List.forall₂_map_right_iff, List.forall₂_same]
    intro p _
    rw [List.forall₂_map_right_iff, List.forall₂_same]
    intro n _
    by_cases h : isSeamNodeH axisX band n = true <;> simp [h]
  · intro layer side hsel hband
    have hnone := List.filter_eq_nil_iff.mp hband
    have hfilter : (selectedNodes layer).filter
        (isSeamNodeH (seamAxisH side (selectedNodes layer)) snapBand) = [] :=
      List.filter_eq_nil_iff.mpr fun n hn =>
        hnone n (mem_allNodes_of_mem_selectedNodes hn)
    have hany : (allNodes layer).any
        (isSeamNodeH (seamAxisH side (selectedNodes layer)) snapBand) = false := by
      rw [List.any_eq_false]
      exact hnone
    have hcol : collectHSeamNodes layer (selectedNodes layer)
        (seamAxisH side (selectedNodes layer)) snapBand = (layer, []) := by
      simp only [collectHSeamNodes]
      rw [if_neg (by simp [hfilter]), if_neg (by simp [hany])]
    simp only [mirrorHorizontalUI]
    rw [if_neg hsel, hcol]
    simp

/-- C7 witness: the abort branch of the amended statement at a layer
whose only selected node is off-curve, with no on-curve band node. -/
theorem c7_witness : mirrorHorizontalUI c7wL .left true = (c7wL, some .noSeamPoints) :=
  c7_amended.2 c7wL .left (by simp [selectedNodes, c7wL])
    (by norm_num [allNodes, c7wL, isSeamNodeH, rabs, seamAxisH, selectedNodes,
      listMax])

/-- C6 counterexample: with snapping enabled, mirrorHorizontal moves the
two in-band seam nodes of c6L to their mean x = -2 and only then fails
seam validation against the third selected node at x = -13/2 (newly in
band around the snapped axis): the invocation errors out, yet the node
positions of the layer have already been changed. -/
theorem c6_counterexample :
    mirrorHorizontalUI c6L .left true = (c6Snapped, some .seamValidationFailed) ∧
    positions c6Snapped ≠ positions c6L := by
  constructor
  · norm_num [mirrorHorizontalUI, selectedNodes, seamAxisH, listMax,
      collectHSeamNodes, isSeamNodeH, rabs, snapBand, epsTol, allNodes,
      autoSelectH, snapH, mean, toPoint, find_seam_points,
      validate_seam_alignment, almost_equal, coordOf, trimH, reflectNodeH,
      c6L, c6Snapped, List.cons_ne_nil]
  · norm_num [positions, c6L, c6Snapped, Prod.mk.injEq]

/-- C6 amended: with autoSnap disabled, every error return of the mirror
operations leaves every node position of the layer unchanged (selection
flags may still have been auto-extended); the positional transactional
guarantee fails only through the snap path, as the counterexample shows. -/
theorem c6_amended :
    ∀ (L : Layer) (hs : HSide) (vs : VSide),
    (∀ L2 e, mirrorHorizontalUI L hs false = (L2, some e) →
      positions L2 = positions L) ∧
    (∀ L2 e, mirrorVerticalUI L vs false = (L2, some e) →
      positions L2 = positions L) := by
  intro L hs vs
  constructor
  · intro L2 e h
    simp only [mirrorHorizontalUI, Bool.false_eq_true, if_false] at h
    split at h
    · injection h with h1 h2
      rw [← h1]
    · split at h
      · injection h with h1 h2
        rw [← h1]
        exact positions_collectH_fst _ _ _ _
      · split at h
        · injection h with h1 h2
          rw [← h1]
          exact positions_collectH_fst _ _ _ _
        · split at h
          · injection h with h1 h2
            rw [← h1]
            exact positions_collectH_fst _ _ _ _
          · split at h
            · injection h with h1 h2
              rw [← h1]
              exact positions_collectH_fst _ _ _ _
            · injection h with h1 h2
              cases h2
  · intro L2 e h
    simp only [mirrorVerticalUI, Bool.false_eq_true, if_false] at h
    split at h
    · injection h with h1 h2
      rw [← h1]
    · split at h
      · injection h with h1 h2
        rw [← h1]
        exact positions_collectV_fst _ _ _ _
      · split at h
        · injection h with h1 h2
          rw [← h1]
          exact positions_collectV_fst _ _ _ _
        · split at h
          · injection h with h1 h2
            rw [← h1]
            exact positions_collectV_fst _ _ _ _
          · split at h
            · injection h with h1 h2
              rw [← h1]
              exact positions_collectV_fst _ _ _ _
            · injection h with h1 h2
              cases h2

/-- C6 witness: a misaligned selection fails validation with snapping
disabled, and the amended theorem confirms the positions are untouched. -/
theorem c6_witness :
    mirrorHorizontalUI c6wL .left false = (c6wL, some .seamValidationFailed) ∧
    positions c6wL = positions c6wL := by
  have hrun : mirrorHorizontalUI c6wL .left false = (c6wL, some .seamValidationFailed) := by
    norm_num [mirrorHorizontalUI, selectedNodes, seamAxisH, listMax,
      collectHSeamNodes, isSeamNodeH, rabs, snapBand, epsTol, allNodes,
      autoSelectH, snapH, mean, toPoint, find_seam_points,
      validate_seam_alignment, almost_equal, coordOf, trimH, reflectNodeH,
      c6wL, List.cons_ne_nil]
  exact ⟨hrun, (c6_amended c6wL .left .top).1 c6wL .seamValidationFailed hrun⟩

/-- C9 counterexample: in c9L every marked point lies within SIDE_EPSILON
of the resolved seam (a seam-only selection), yet the operation reports
no error and rebuilds the layer: the unmarked opposite-side node is
deleted and a mirrored path is appended, so the outline is not left
unchanged and no seam-only error is reported. -/
theorem c9_counterexample :
    (selectedNodes c9L).all
      (fun n => decide (rabs (n.x - seamAxisH .left (selectedNodes c9L)) ≤ sideEpsilon))
      = true ∧
    mirrorHorizontalUI c9L .left false = (c9Result, none) ∧
    c9Result ≠ c9L := by
  refine ⟨?_, ?_, by simp [c9Result, c9L]⟩
  · norm_num [selectedNodes, seamAxisH, listMax, c9L, rabs, sideEpsilon]
  · norm_num [mirrorHorizontalUI, selectedNodes, seamAxisH, listMax,
      collectHSeamNodes, isSeamNodeH, rabs, snapBand, epsTol, allNodes,
      autoSelectH, snapH, mean, toPoint, find_seam_points,
      validate_seam_alignment, almost_equal, coordOf, trimH, reflectNodeH,
      c9L, c9Result, List.cons_ne_nil]

/-- C9 amended: the code has no seam-only check.  A non-empty selection
whose nodes are all on-curve and share one x coordinate is exactly a
seam-only selection (each marked node is within SIDE_EPSILON of the
resolved seam); such an invocation reports no error and appends one
mirrored path per path containing marked nodes, strictly growing the
path list instead of leaving the outline unchanged. -/
theorem c9_amended (L : Layer) (side : HSide) (c : ℚ)
    (h1 : selectedNodes L ≠ [])
    (h2 : ∀ n ∈ selectedNodes L, n.onCurve = true)
    (h3 : ∀ n ∈ selectedNodes L, n.x = c) :
    (∀ n ∈ selectedNodes L,
      rabs (n.x - seamAxisH side (selectedNodes L)) ≤ sideEpsilon) ∧
    (mirrorHorizontalUI L side false).2 = none ∧
    L.length < (mirrorHorizontalUI L side false).1.length := by
  have haxis : seamAxisH side (selectedNodes L) = c := by
    cases side
    · exact listMax_const (by simpa using h1) fun a ha => by
        obtain ⟨n, hn, rfl⟩ := List.mem_map.mp ha
        exact h3 n hn
    · exact listMin_const (by simpa using h1) fun a ha => by
        obtain ⟨n, hn, rfl⟩ := List.mem_map.mp ha
        exact h3 n hn
  refine ⟨?_, ?_⟩
  · intro n hn
    rw [haxis, h3 n hn]
    norm_num [rabs, sideEpsilon]
  have hfil : (selectedNodes L).filter
      (isSeamNodeH (seamAxisH side (selectedNodes L)) snapBand) = selectedNodes L := by
    apply List.filter_eq_self.mpr
    intro n hn
    simp only [isSeamNodeH, h2 n hn, haxis, h3 n hn, sub_self, Bool.true_and]
    norm_num [rabs, snapBand]
  have hcol : collectHSeamNodes L (selectedNodes L)
      (seamAxisH side (selectedNodes L)) snapBand = (L, selectedNodes L) := by
    simp only [collectHSeamNodes, hfil]
    rw [if_pos h1]
  have hfind : find_seam_points ((selectedNodes L).map toPoint)
      (seamAxisH side (selectedNodes L)) snapBand true =
      (selectedNodes L).map toPoint := by
    apply List.filter_eq_self.mpr
    intro p hp
    obtain ⟨n, hn, rfl⟩ := List.mem_map.mp hp
    simp only [toPoint, coordOf, if_true, h2 n hn, haxis, h3 n hn, sub_self,
      Bool.true_and]
    norm_num [rabs, snapBand]
  have hvalid : ∃ v,
      validate_seam_alignment ((selectedNodes L).map toPoint) true epsTol = .ok v := by
    cases hsel : selectedNodes L with
    | nil => exact absurd hsel h1
    | cons n t =>
        have hall : ((t.map toPoint).map (coordOf true)).all
            (fun x => almost_equal x (coordOf true (toPoint n)) epsTol) = true := by
          rw [List.all_eq_true]
          intro x hx
          obtain ⟨q, hq, rfl⟩ := List.mem_map.mp hx
          obtain ⟨m, hm, rfl⟩ := List.mem_map.mp hq
          have hmx : m.x = c := h3 m (by rw [hsel]; exact List.mem_cons_of_mem _ hm)
          have hnx : n.x = c := h3 n (by rw [hsel]; exact List.mem_cons_self n t)
          simp only [almost_equal, toPoint, coordOf, if_true, hmx, hnx, sub_self]
          norm_num [rabs, epsTol]
        rw [List.map_cons, validate_cons, if_pos hall]
        exact ⟨_, rfl⟩
  obtain ⟨v, hv⟩ := hvalid
  have hpaths : L.filter (fun p => p.any fun n => n.selected) ≠ [] :=
    pathsWithSel_ne_nil h1
  have hmapne : (selectedNodes L).map toPoint ≠ [] := by simpa using h1
  have hf1 : (selectedNodes L = []) = False := eq_false h1
  have hf2 : ((selectedNodes L).map toPoint = []) = False := eq_false hmapne
  have hf3 : (L.filter (fun p => p.any fun n => n.selected) = []) = False :=
    eq_false hpaths
  simp only [mirrorHorizontalUI, Bool.false_eq_true, if_false, hf1]
  rw [hcol]
  dsimp only
  rw [hfind, hv]
  simp only [hf1, hf2, hf3, if_false]
  refine ⟨trivial, ?_⟩
  simp only [List.length_append, List.length_map]
  have hpos : 0 < (L.filter (fun p => p.any fun n => n.selected)).length :=
    List.length_pos.mpr hpaths
  omega

/-- C9 witness: the amended statement applied to a concrete seam-only
selection of two nodes, both on-curve at x = 0. -/
theorem c9_witness :
    (∀ n ∈ selectedNodes c9wL,
      rabs (n.x - seamAxisH .left (selectedNodes c9wL)) ≤ sideEpsilon) ∧
    (mirrorHorizontalUI c9wL .left false).2 = none ∧
    c9wL.length < (mirrorHorizontalUI c9wL .left false).1.length :=
  c9_amended c9wL .left 0 (by simp [selectedNodes, c9wL])
    (by
      intro n hn
      simp only [selectedNodes, c9wL, List.map_cons, List.map_nil] at hn
      norm_num at hn
      rcases hn with rfl | rfl <;> rfl)
    (by
      intro n hn
      simp only [selectedNodes, c9wL, List.map_cons, List.map_nil] at hn
      norm_num at hn
      rcases hn with rfl | rfl <;> rfl)

end GlyphMirror
